import Mathlib

/-!
Verification development for the `ews-workmail` Go library (packages `ews`
and `ewsimpersonation`): a shallow embedding of the calendar-availability
algorithms, the date codec, the token cache and the request-building /
response-checking logic of the CRUD operations, together with theorems
settling the specification claims.

Modelling conventions:
* `time.Time` values are modelled at second precision by `GoTime`:
  an absolute instant (seconds since epoch, `Int`) plus the zone offset
  (seconds east of UTC) the value displays in.  `Before`/`After`/`Sub`
  compare instants exactly as Go does.
* A `*time.Location` is modelled as a fixed offset in seconds
  (`timeZone : Int`).  Formatting and parsing only ever consume the
  offset the location yields at the instant in question, so a fixed
  offset loses nothing for the properties at stake.
* EWS date strings are modelled by their syntax class `DateTimeStr`:
  the wall-clock seconds value the digits encode plus, where present,
  the numeric offset.  Go's layout-driven `time.Parse` becomes one
  matcher per layout; Go's RFC3339 layout accepts both a `±hh:mm`
  offset and the literal `Z`, and Go accepts `Z` for the numeric
  `-0700` layout as well.
* The network is abstracted by passing the transport's reply in as a
  parameter and returning the request(s) that the operation would put
  on the wire; the length of the returned request list is the number of
  transport invocations.
-/

deriving instance DecidableEq for Except

namespace EwsWorkmail

/-- A Go `time.Time` at second precision: the absolute instant in seconds
since the epoch, and the zone offset (seconds east of UTC) in which the
value renders its wall clock. -/
structure GoTime where
  instant : Int
  offset : Int
  deriving Repr, DecidableEq

/-- `t.Before u` — strict comparison of instants, as in Go. -/
def GoTime.Before (t u : GoTime) : Bool := t.instant < u.instant

/-- `t.After u` — strict comparison of instants, as in Go. -/
def GoTime.After (t u : GoTime) : Bool := t.instant > u.instant

/-- `t.Sub u` — difference of instants in seconds (Go returns a
`time.Duration`; at second precision that is this integer). -/
def GoTime.Sub (t u : GoTime) : Int := t.instant - u.instant

/-- `t.In loc` — same instant, displayed in the zone with offset `off`. -/
def GoTime.In (t : GoTime) (off : Int) : GoTime := ⟨t.instant, off⟩

/-- The wall-clock seconds value `t` displays (what `Year()…Second()`
re-encode): instant shifted by the display offset. -/
def GoTime.wall (t : GoTime) : Int := t.instant + t.offset

/-- Syntax class of an EWS date-time string, at second precision.
`wall` is the wall-clock value the date-and-time digits encode;
`off` the numeric UTC offset (seconds) the string carries. -/
inductive DateTimeStr where
  /-- `2006-01-02T15:04:05±hh:mm` — offset-qualified (RFC 3339) form. -/
  | offsetColon (wall off : Int)
  /-- `2006-01-02T15:04:05Z` — `Z`-suffixed UTC form. -/
  | zulu (wall : Int)
  /-- `2006-01-02T15:04:05±hhmm` — offset without colon. -/
  | offsetNoColon (wall off : Int)
  /-- `2006-01-02T15:04:05` — bare local form, no zone information. -/
  | bare (wall : Int)
  /-- Anything matching none of the four layouts. -/
  | malformed (s : String)
  deriving Repr, DecidableEq

/-- Whether the string carries its own zone information (an explicit
numeric offset or the `Z` marker). -/
def DateTimeStr.carriesOffset : DateTimeStr → Bool
  | .offsetColon _ _ => true
  | .zulu _ => true
  | .offsetNoColon _ _ => true
  | .bare _ => false
  | .malformed _ => false

/-- `time.Parse(time.RFC3339, s)`: Go's RFC 3339 layout accepts a
`±hh:mm` offset or the literal `Z` (read as UTC).  The instant is the
wall clock minus the carried offset. -/
def timeParseRFC3339 : DateTimeStr → Option GoTime
  | .offsetColon w o => some ⟨w - o, o⟩
  | .zulu w => some ⟨w, 0⟩
  | _ => none

/-- `time.Parse("2006-01-02T15:04:05Z", s)`: the trailing `Z` here is a
literal character, so only the `Z`-suffixed form matches; the result is
read as UTC. -/
def timeParseZLiteral : DateTimeStr → Option GoTime
  | .zulu w => some ⟨w, 0⟩
  | _ => none

/-- `time.Parse("2006-01-02T15:04:05-0700", s)`: the colon-free numeric
offset layout; Go additionally accepts `Z` for any numeric zone layout. -/
def timeParseNumTZ : DateTimeStr → Option GoTime
  | .offsetNoColon w o => some ⟨w - o, o⟩
  | .zulu w => some ⟨w, 0⟩
  | _ => none

/-- `time.Parse("2006-01-02T15:04:05", s)`: no zone in the layout, so Go
reads the wall clock as UTC. -/
def timeParseBare : DateTimeStr → Option GoTime
  | .bare w => some ⟨w, 0⟩
  | _ => none

/-- The offset actually printed by Go's `-07:00`/`-0700` format verbs:
hours and minutes only, any sub-minute part of the zone offset is
dropped (Go divides the absolute offset by 60 and re-applies the sign). -/
def printedZoneOffset (off : Int) : Int :=
  if off < 0 then -(60 * ((Int.natAbs off) / 60 : Nat)) else 60 * ((Int.natAbs off) / 60 : Nat)

/-- `ews.EWSClient`: endpoint, credentials, and the configured
`*time.Location` modelled as a fixed offset in seconds. -/
structure EWSClient where
  URL : String
  Username : String
  Password : String
  TimeZone : Int
  deriving Repr, DecidableEq

/-- `EWSClient.FormatDateWithTZ`: convert into the client's timezone and
render with layout `2006-01-02T15:04:05-07:00`. -/
def EWSClient.FormatDateWithTZ (c : EWSClient) (t : GoTime) : DateTimeStr :=
  .offsetColon (t.In c.TimeZone).wall (printedZoneOffset c.TimeZone)

/-- `EWSClient.FormatDateWithoutTZ`: convert into the client's timezone
and render with layout `2006-01-02T15:04:05` (no offset). -/
def EWSClient.FormatDateWithoutTZ (c : EWSClient) (t : GoTime) : DateTimeStr :=
  .bare (t.In c.TimeZone).wall

/-- `EWSClient.ParseDateTime`: try RFC 3339, then the `Z`-literal layout,
then the colon-free offset layout, each returned as-is on success; if all
fail, try the bare layout and rebuild the wall-clock fields in the
client's timezone via `time.Date`; otherwise error. -/
def EWSClient.ParseDateTime (c : EWSClient) (dateStr : DateTimeStr) : Except String GoTime :=
  match timeParseRFC3339 dateStr with
  | some t => .ok t
  | none =>
    match timeParseZLiteral dateStr with
    | some t => .ok t
    | none =>
      match timeParseNumTZ dateStr with
      | some t => .ok t
      | none =>
        match timeParseBare dateStr with
        | some t => .ok ⟨t.wall - c.TimeZone, c.TimeZone⟩
        | none => .error "unable to parse date string"

/-- `ewsimpersonation.ImpersonationClient`: WorkMail identities, the EWS
endpoint, the configured timezone (fixed offset, seconds), and the
token-cache slot (`currentToken`, `tokenExpiry`). -/
structure ImpersonationClient where
  awsRegion : String
  workmailOrgID : String
  impersonationRoleID : String
  ewsEndpoint : String
  timeZone : Int
  currentToken : Option String
  tokenExpiry : Int
  deriving Repr, DecidableEq

/-- `ImpersonationClient.FormatDateWithTZ`: identical rendering to the
basic client's, against the impersonation client's timezone. -/
def ImpersonationClient.FormatDateWithTZ (c : ImpersonationClient) (t : GoTime) : DateTimeStr :=
  .offsetColon (t.In c.timeZone).wall (printedZoneOffset c.timeZone)

/-- `ImpersonationClient.ParseDateTime`: loop over the three layouts
RFC 3339, `Z`-literal, bare; on a bare match rebuild the wall clock in
the client's timezone, on any other match convert the result into the
client's timezone with `In`; error when no layout matches. -/
def ImpersonationClient.ParseDateTime (c : ImpersonationClient) (dateStr : DateTimeStr) :
    Except String GoTime :=
  match timeParseRFC3339 dateStr with
  | some t => .ok (t.In c.timeZone)
  | none =>
    match timeParseZLiteral dateStr with
    | some t => .ok (t.In c.timeZone)
    | none =>
      match timeParseBare dateStr with
      | some t => .ok ⟨t.wall - c.timeZone, c.timeZone⟩
      | none => .error "unable to parse date string with known formats"

/-- `ews.TimeSlot`: a (start, end) pair of timestamps. -/
structure TimeSlot where
  Start : GoTime
  End : GoTime
  deriving Repr, DecidableEq

/-- The fields of a fetched `CalendarItem` the availability engine and the
examples consume; `Start`/`End` are the protocol-formatted date strings. -/
structure CalendarItem where
  Id : String
  Subject : String
  Start : DateTimeStr
  End : DateTimeStr
  Location : String
  deriving Repr, DecidableEq

/-- The per-item loop body of `CheckSlotAvailability`: parse each item's
`Start` and `End` (an unparsable string aborts the whole call with its
error, exactly like the Go early `return`), and keep the item when
`eventStart.Before(slot.End) && eventEnd.After(slot.Start)`. -/
def collectConflicts (c : EWSClient) (slot : TimeSlot) :
    List CalendarItem → Except String (List CalendarItem)
  | [] => .ok []
  | item :: rest =>
    match c.ParseDateTime item.Start with
    | .error e => .error e
    | .ok eventStart =>
      match c.ParseDateTime item.End with
      | .error e => .error e
      | .ok eventEnd =>
        match collectConflicts c slot rest with
        | .error e => .error e
        | .ok tail =>
          .ok (if eventStart.Before slot.End && eventEnd.After slot.Start
            then item :: tail else tail)

/-- `EWSClient.CheckSlotAvailability`, with the fetched items supplied as a
parameter (the Go method fetches them over a one-minute-padded range
first; the fetch itself is network glue outside this model).  Returns
`(isAvailable, conflicts)`: an empty fetch short-circuits to available,
otherwise the conflicts are collected and availability is
`len(conflicts) == 0`. -/
def EWSClient.CheckSlotAvailability (c : EWSClient) (slot : TimeSlot)
    (items : List CalendarItem) : Except String (Bool × List CalendarItem) :=
  if items.isEmpty then .ok (true, [])
  else
    match collectConflicts c slot items with
    | .error e => .error e
    | .ok conflicts => .ok (conflicts.length == 0, conflicts)

/-- `c.ParseDateTime s` succeeds. -/
def parseOk (c : EWSClient) (s : DateTimeStr) : Bool :=
  match c.ParseDateTime s with
  | .ok _ => true
  | .error _ => false

/-- The overlap test of `CheckSlotAvailability` lifted to a fetched item:
the item conflicts with the slot when its parsed start lies strictly
before the slot's end and its parsed end strictly after the slot's start
(an unparsable item never reaches this test in the source). -/
def itemConflicts (c : EWSClient) (slot : TimeSlot) (item : CalendarItem) : Bool :=
  match c.ParseDateTime item.Start, c.ParseDateTime item.End with
  | .ok eventStart, .ok eventEnd => eventStart.Before slot.End && eventEnd.After slot.Start
  | _, _ => false

/-- The parsed busy interval used inside `GetAvailableSlots` (the
anonymous `struct { Start, End time.Time }` of the Go code). -/
structure ParsedEvent where
  Start : GoTime
  End : GoTime
  deriving Repr, DecidableEq

/-- The parse pass of `GetAvailableSlots`: each item's `Start`/`End`
strings are parsed in order, any failure aborting the call. -/
def parseEvents (c : EWSClient) : List CalendarItem → Except String (List ParsedEvent)
  | [] => .ok []
  | item :: rest =>
    match c.ParseDateTime item.Start with
    | .error e => .error e
    | .ok eventStart =>
      match c.ParseDateTime item.End with
      | .error e => .error e
      | .ok eventEnd =>
        match parseEvents c rest with
        | .error e => .error e
        | .ok tail => .ok (⟨eventStart, eventEnd⟩ :: tail)

/-- The scan loop of `GetAvailableSlots`, accumulator-style like the Go
`for` loop: for each event, append the gap `[currentTime, event.Start)`
when it is at least `slotDuration`, then advance `currentTime` to
`event.End` when that lies strictly after it; after the last event append
the tail gap `[currentTime, endTime)` under the same duration test. -/
def findSlotsLoop (slotDuration : Int) (endTime : GoTime) :
    GoTime → List TimeSlot → List ParsedEvent → List TimeSlot
  | currentTime, acc, [] =>
    if endTime.Sub currentTime ≥ slotDuration then acc ++ [⟨currentTime, endTime⟩] else acc
  | currentTime, acc, event :: rest =>
    let acc2 := if event.Start.Sub currentTime ≥ slotDuration
      then acc ++ [⟨currentTime, event.Start⟩] else acc
    let cur2 := if event.End.After currentTime then event.End else currentTime
    findSlotsLoop slotDuration endTime cur2 acc2 rest

/-- `EWSClient.GetAvailableSlots`, with the fetched items supplied as a
parameter.  An empty fetch returns the whole period as a single slot with
no duration test; otherwise the items are parsed (errors propagate) and
scanned.  The Go source contains no sort (`// Note: In a real
implementation, you would sort the events by start time here`), so the
events are scanned in the order given. -/
def EWSClient.GetAvailableSlots (c : EWSClient) (startTime endTime : GoTime)
    (slotDuration : Int) (items : List CalendarItem) : Except String (List TimeSlot) :=
  if items.isEmpty then .ok [⟨startTime, endTime⟩]
  else
    match parseEvents c items with
    | .error e => .error e
    | .ok events => .ok (findSlotsLoop slotDuration endTime startTime [] events)

/-- The free-slot scan exactly as the claim words it (refinement
reference, written from the specification, to be compared with the
source-derived `findSlotsLoop`): starting with a cursor at `periodStart`,
for each busy interval in order emit `[cursor, interval.Start)` when
`interval.Start - cursor ≥ d`, then advance the cursor to
`max(cursor, interval.End)`; after the last interval emit
`[cursor, periodEnd)` when `periodEnd - cursor ≥ d`. -/
def specFreeSlotScan (d : Int) (periodEnd : GoTime) : GoTime → List ParsedEvent → List TimeSlot
  | cursor, [] =>
    if periodEnd.Sub cursor ≥ d then [⟨cursor, periodEnd⟩] else []
  | cursor, interval :: rest =>
    (if interval.Start.Sub cursor ≥ d then [⟨cursor, interval.Start⟩] else []) ++
      specFreeSlotScan d periodEnd
        (if cursor.instant ≥ interval.End.instant then cursor else interval.End) rest

/-- Non-decreasing start-time order of a parsed busy-interval list (the
documented precondition of the free-slot scan). -/
def sortedByStart : List ParsedEvent → Bool
  | [] => true
  | [_] => true
  | a :: b :: rest => (a.Start.instant ≤ b.Start.instant) && sortedByStart (b :: rest)

/-- `ItemBody`: body type tag plus text content. -/
structure ItemBody where
  BodyType : String
  Content : String
  deriving Repr, DecidableEq

/-- `EmailAddress`: the mailbox triple placed under each attendee. -/
structure EmailAddress where
  Name : String
  EmailAddress : String
  RoutingType : String
  deriving Repr, DecidableEq

/-- `AttendeeType`: one attendee element on the wire. -/
structure AttendeeType where
  Mailbox : EmailAddress
  deriving Repr, DecidableEq

/-- Client-side `Attendee`: display name and address. -/
structure Attendee where
  Name : String
  Email : String
  deriving Repr, DecidableEq

/-- Both clients wrap an `Attendee` this same way, with `RoutingType`
fixed to SMTP. -/
def Attendee.toAttendeeType (a : Attendee) : AttendeeType :=
  ⟨⟨a.Name, a.Email, "SMTP"⟩⟩

/-- Client-side `CalendarEvent` (write side, consumed by create). -/
structure CalendarEvent where
  Subject : String
  Body : String
  Start : GoTime
  End : GoTime
  Location : String
  IsAllDay : Bool
  RequiredAttendees : List Attendee
  OptionalAttendees : List Attendee
  SendInvites : Bool
  deriving Repr, DecidableEq

/-- Client-side `EventUpdates`: every field optional (`nil` pointer in Go
becomes `none`; the attendee slices are absent when empty). -/
structure EventUpdates where
  Start : Option GoTime
  End : Option GoTime
  Subject : Option String
  Body : Option String
  LegacyFreeBusy : Option String
  Location : Option String
  RequiredAttendees : List Attendee
  OptionalAttendees : List Attendee
  deriving Repr, DecidableEq

/-- No field of the patch is present: all optionals absent, both
attendee lists empty. -/
def EventUpdates.hasNoPresentFields (u : EventUpdates) : Bool :=
  u.Start.isNone && u.End.isNone && u.Subject.isNone && u.Body.isNone &&
    u.LegacyFreeBusy.isNone && u.Location.isNone &&
    u.RequiredAttendees.isEmpty && u.OptionalAttendees.isEmpty

/-- Wire `UpdateCalendarItem`: at most one of the optional members is
populated per field-set operation. -/
structure UpdateCalendarItem where
  Start : Option DateTimeStr
  End : Option DateTimeStr
  Subject : Option String
  Body : Option ItemBody
  LegacyFreeBusy : Option String
  Location : Option String
  RequiredAttendees : Option (List AttendeeType)
  OptionalAttendees : Option (List AttendeeType)
  deriving Repr, DecidableEq

/-- The all-`none` `UpdateCalendarItem`, from which each field-set
operation populates exactly one member. -/
def UpdateCalendarItem.empty : UpdateCalendarItem :=
  ⟨none, none, none, none, none, none, none, none⟩

/-- Wire `SetItemField`: a field path plus the single-field item value. -/
structure SetItemField where
  FieldURI : String
  CalendarItem : UpdateCalendarItem
  deriving Repr, DecidableEq

/-- Wire `ItemId`: server id plus change key (the basic client sends an
empty change key). -/
structure ItemId where
  Id : String
  ChangeKey : String
  deriving Repr, DecidableEq

/-- Wire `UpdateItemRequest` (attributes plus the single item change). -/
structure UpdateItemRequest where
  ConflictResolution : String
  SendMeetingInvitations : String
  MessageDisposition : String
  ItemId : ItemId
  SetItemField : List SetItemField
  deriving Repr, DecidableEq

/-- Wire `CreateEventCalendarItem`: the calendar-item payload of a
create request. -/
structure CreateEventCalendarItem where
  Subject : String
  Body : ItemBody
  ReminderIsSet : Bool
  ReminderMinutes : Int
  Start : DateTimeStr
  End : DateTimeStr
  IsAllDayEvent : Bool
  LegacyFreeBusy : String
  Location : String
  RequiredAttendees : Option (List AttendeeType)
  OptionalAttendees : Option (List AttendeeType)
  deriving Repr, DecidableEq

/-- Wire `CreateEventRequest`. -/
structure CreateEventRequest where
  SendMeetingInvitations : String
  SavedItemFolderId : String
  CalendarItem : CreateEventCalendarItem
  deriving Repr, DecidableEq

/-- Wire `DeleteItemRequest`. -/
structure DeleteItemRequest where
  DeleteType : String
  SendMeetingCancellations : String
  ItemIds : List ItemId
  deriving Repr, DecidableEq

/-- The transport's reply to a SOAP operation: HTTP status plus the
response class and code the body would deserialize to. -/
structure SoapReply where
  status : Nat
  ResponseClass : String
  ResponseCode : String
  deriving Repr, DecidableEq

/-- The field-set operations `ews.EWSClient.UpdateCalendarEvent` appends,
in the source's order Start, End, Subject, Body, LegacyFreeBusy,
Location, RequiredAttendees, OptionalAttendees — one operation per
present field, dates rendered with `FormatDateWithoutTZ`, attendee lists
emitted only when non-empty. -/
def EWSClient.updateSetItemFields (c : EWSClient) (updates : EventUpdates) :
    List SetItemField :=
  (match updates.Start with
    | some t => [⟨"calendar:Start",
        { UpdateCalendarItem.empty with Start := some (c.FormatDateWithoutTZ t) }⟩]
    | none => []) ++
  (match updates.End with
    | some t => [⟨"calendar:End",
        { UpdateCalendarItem.empty with End := some (c.FormatDateWithoutTZ t) }⟩]
    | none => []) ++
  (match updates.Subject with
    | some s => [⟨"item:Subject", { UpdateCalendarItem.empty with Subject := some s }⟩]
    | none => []) ++
  (match updates.Body with
    | some b => [⟨"item:Body", { UpdateCalendarItem.empty with Body := some ⟨"Text", b⟩ }⟩]
    | none => []) ++
  (match updates.LegacyFreeBusy with
    | some f => [⟨"calendar:LegacyFreeBusyStatus",
        { UpdateCalendarItem.empty with LegacyFreeBusy := some f }⟩]
    | none => []) ++
  (match updates.Location with
    | some l => [⟨"calendar:Location", { UpdateCalendarItem.empty with Location := some l }⟩]
    | none => []) ++
  (if updates.RequiredAttendees.isEmpty then []
    else [⟨"calendar:RequiredAttendees",
      { UpdateCalendarItem.empty with
          RequiredAttendees := some (updates.RequiredAttendees.map Attendee.toAttendeeType) }⟩]) ++
  (if updates.OptionalAttendees.isEmpty then []
    else [⟨"calendar:OptionalAttendees",
      { UpdateCalendarItem.empty with
          OptionalAttendees := some (updates.OptionalAttendees.map Attendee.toAttendeeType) }⟩])

/-- `ews.EWSClient.UpdateCalendarEvent`: builds the update request
(fixed `AlwaysOverwrite` / `SendToAllAndSaveCopy` / `SaveOnly`, no change
key) and sends it unconditionally — there is no empty-patch check, so
even a patch with no present fields produces one transport call carrying
an empty `SetItemField` list.  Returns the operation's outcome against
the supplied reply, together with the list of requests put on the wire. -/
def EWSClient.UpdateCalendarEvent (c : EWSClient) (itemID : String)
    (updates : EventUpdates) (reply : SoapReply) :
    Except String Unit × List UpdateItemRequest :=
  let request : UpdateItemRequest :=
    ⟨"AlwaysOverwrite", "SendToAllAndSaveCopy", "SaveOnly", ⟨itemID, ""⟩,
      c.updateSetItemFields updates⟩
  let outcome : Except String Unit :=
    if reply.status ≠ 200 then .error "unexpected status code"
    else if reply.ResponseClass ≠ "Success" then .error ("EWS error: " ++ reply.ResponseCode)
    else .ok ()
  (outcome, [request])

/-- The field-set operations `ImpersonationClient.UpdateCalendarEvent`
appends, in the source's order Subject, Body, Start, End, Location,
LegacyFreeBusy, RequiredAttendees, OptionalAttendees — dates rendered
with `FormatDateWithTZ` (offset-qualified), attendee lists only when
non-empty. -/
def ImpersonationClient.updateSetItemFields (c : ImpersonationClient)
    (updates : EventUpdates) : List SetItemField :=
  (match updates.Subject with
    | some s => [⟨"item:Subject", { UpdateCalendarItem.empty with Subject := some s }⟩]
    | none => []) ++
  (match updates.Body with
    | some b => [⟨"item:Body", { UpdateCalendarItem.empty with Body := some ⟨"Text", b⟩ }⟩]
    | none => []) ++
  (match updates.Start with
    | some t => [⟨"calendar:Start",
        { UpdateCalendarItem.empty with Start := some (c.FormatDateWithTZ t) }⟩]
    | none => []) ++
  (match updates.End with
    | some t => [⟨"calendar:End",
        { UpdateCalendarItem.empty with End := some (c.FormatDateWithTZ t) }⟩]
    | none => []) ++
  (match updates.Location with
    | some l => [⟨"calendar:Location", { UpdateCalendarItem.empty with Location := some l }⟩]
    | none => []) ++
  (match updates.LegacyFreeBusy with
    | some f => [⟨"calendar:LegacyFreeBusyStatus",
        { UpdateCalendarItem.empty with LegacyFreeBusy := some f }⟩]
    | none => []) ++
  (if updates.RequiredAttendees.isEmpty then []
    else [⟨"calendar:RequiredAttendees",
      { UpdateCalendarItem.empty with
          RequiredAttendees := some (updates.RequiredAttendees.map Attendee.toAttendeeType) }⟩]) ++
  (if updates.OptionalAttendees.isEmpty then []
    else [⟨"calendar:OptionalAttendees",
      { UpdateCalendarItem.empty with
          OptionalAttendees := some (updates.OptionalAttendees.map Attendee.toAttendeeType) }⟩])

/-- `ImpersonationClient.UpdateCalendarEvent`: builds the item-change
list and, when it is empty, fails with the empty-update error before
`doRequest` is ever reached (empty wire list); otherwise sends exactly
one request (conflict resolution and invitation disposition from the
caller, `SaveOnly`, the caller's change key) and checks the reply's
response class. -/
def ImpersonationClient.UpdateCalendarEvent (c : ImpersonationClient)
    (itemId changeKey : String) (updates : EventUpdates)
    (conflictResolution sendMeetingInvitationsOrCancellations : String)
    (reply : SoapReply) : Except String Unit × List UpdateItemRequest :=
  let itemChanges := c.updateSetItemFields updates
  if itemChanges.isEmpty then
    (.error "no updates provided for calendar event", [])
  else
    let request : UpdateItemRequest :=
      ⟨conflictResolution, sendMeetingInvitationsOrCancellations, "SaveOnly",
        ⟨itemId, changeKey⟩, itemChanges⟩
    let outcome : Except String Unit :=
      if reply.status ≠ 200 then .error "EWS request failed with non-200 status"
      else if reply.ResponseClass ≠ "Success" then
        .error ("EWS error updating event: " ++ reply.ResponseClass ++ ". Code: " ++
          reply.ResponseCode)
      else .ok ()
    (outcome, [request])

/-- The create-item payload `ews.EWSClient.CreateCalendarEvent` builds:
text body, reminder enabled at 15 minutes, start/end via
`FormatDateWithoutTZ`, free/busy hardwired to Busy, attendee elements
attached only when the corresponding list is non-empty, invitation
disposition from the `SendInvites` flag. -/
def EWSClient.buildCreateEventRequest (c : EWSClient) (event : CalendarEvent) :
    CreateEventRequest :=
  ⟨if event.SendInvites then "SendToAllAndSaveCopy" else "SendToNone",
    "calendar",
    ⟨event.Subject, ⟨"Text", event.Body⟩, true, 15,
      c.FormatDateWithoutTZ event.Start, c.FormatDateWithoutTZ event.End,
      event.IsAllDay, "Busy", event.Location,
      if event.RequiredAttendees.isEmpty then none
        else some (event.RequiredAttendees.map Attendee.toAttendeeType),
      if event.OptionalAttendees.isEmpty then none
        else some (event.OptionalAttendees.map Attendee.toAttendeeType)⟩⟩

/-- The create-item payload `ImpersonationClient.CreateCalendarEvent`
builds: like the basic client's except the invitation disposition is a
caller argument and start/end are rendered via `FormatDateWithTZ`, i.e.
with an explicit UTC offset. -/
def ImpersonationClient.buildCreateEventRequest (c : ImpersonationClient)
    (event : CalendarEvent) (sendMeetingInvitations : String) : CreateEventRequest :=
  ⟨sendMeetingInvitations,
    "calendar",
    ⟨event.Subject, ⟨"Text", event.Body⟩, true, 15,
      c.FormatDateWithTZ event.Start, c.FormatDateWithTZ event.End,
      event.IsAllDay, "Busy", event.Location,
      if event.RequiredAttendees.isEmpty then none
        else some (event.RequiredAttendees.map Attendee.toAttendeeType),
      if event.OptionalAttendees.isEmpty then none
        else some (event.OptionalAttendees.map Attendee.toAttendeeType)⟩⟩

/-- `ews.EWSClient.DeleteCalendarEvent`: hard delete with cancellations
sent, no change key.  The Go method checks only the HTTP status and
never reads the response body, so any 200 reply is reported as success
regardless of its response class. -/
def EWSClient.DeleteCalendarEvent (c : EWSClient) (itemID : String)
    (reply : SoapReply) : Except String Unit × DeleteItemRequest :=
  let request : DeleteItemRequest :=
    ⟨"HardDelete", "SendToAllAndSaveCopy", [⟨itemID, ""⟩]⟩
  let outcome : Except String Unit :=
    if reply.status ≠ 200 then .error "unexpected status code" else .ok ()
  (outcome, request)

/-- `ImpersonationClient.DeleteCalendarEvent`: delete type and
cancellation disposition from the caller, change key carried, and a
non-`"Success"` response class on a 200 reply surfaced as an error
carrying the class and code. -/
def ImpersonationClient.DeleteCalendarEvent (c : ImpersonationClient)
    (itemId changeKey deleteType sendMeetingCancellations : String)
    (reply : SoapReply) : Except String Unit × DeleteItemRequest :=
  let request : DeleteItemRequest :=
    ⟨deleteType, sendMeetingCancellations, [⟨itemId, changeKey⟩]⟩
  let outcome : Except String Unit :=
    if reply.status ≠ 200 then .error "EWS request failed with non-200 status"
    else if reply.ResponseClass ≠ "Success" then
      .error ("EWS error deleting event: " ++ reply.ResponseClass ++ ". Code: " ++
        reply.ResponseCode)
    else .ok ()
  (outcome, request)

/-- `tokenRefreshBuffer`: 5 minutes, in seconds. -/
def tokenRefreshBuffer : Int := 300

/-- What `AssumeImpersonationRole` returns: both members are pointers in
the AWS SDK and may be absent. -/
structure AssumeImpersonationRoleOutput where
  Token : Option String
  ExpiresIn : Option Int
  deriving Repr, DecidableEq

/-- The refresh arm of `getToken`, below the cached-token test: one call
to the identity service; an error or a response missing token or expiry
leaves the cache as it was, a fully-formed success replaces both cached
members. -/
def ImpersonationClient.refreshToken (c : ImpersonationClient) (now : Int)
    (assumeRole : Except String AssumeImpersonationRoleOutput) :
    Except String String × ImpersonationClient × Nat :=
  match assumeRole with
  | .error e => (.error ("failed to assume impersonation role: " ++ e), c, 1)
  | .ok resp =>
    match resp.Token, resp.ExpiresIn with
    | some tok, some expiresIn =>
      (.ok tok, { c with currentToken := some tok, tokenExpiry := now + expiresIn }, 1)
    | _, _ =>
      (.error "AssumeImpersonationRole response missing token or expiry", c, 1)

/-- `ImpersonationClient.getToken`.  `now` stands for `time.Now()` and
`assumeRole` for the identity service's answer were it consulted.
Returns the token-or-error outcome, the client's state afterwards, and
how many identity-service calls were made.  Cached fast path: a present
token more than the refresh buffer before its expiry is returned
unchanged with no service call; anything else goes through the refresh
arm. -/
def ImpersonationClient.getToken (c : ImpersonationClient) (now : Int)
    (assumeRole : Except String AssumeImpersonationRoleOutput) :
    Except String String × ImpersonationClient × Nat :=
  match c.currentToken with
  | some tok =>
    if now < c.tokenExpiry - tokenRefreshBuffer then (.ok tok, c, 0)
    else c.refreshToken now assumeRole
  | none => c.refreshToken now assumeRole

/-! Concrete instances used by the witness and counterexample theorems. -/

/-- A basic client configured in UTC. -/
def cUTC : EWSClient := ⟨"https://example.awsapps.com/EWS/Exchange.asmx", "user", "pass", 0⟩

/-- A basic client configured one hour east of UTC. -/
def cPlusOne : EWSClient := ⟨"https://example.awsapps.com/EWS/Exchange.asmx", "user", "pass", 3600⟩

/-- A basic client at a sub-minute zone offset, −00:44:30 (−2670 s) —
the historical Africa/Monrovia offset, in force until January 1972, so a
`time.LoadLocation`-obtained zone can yield it at in-range instants. -/
def cMonrovia : EWSClient :=
  ⟨"https://example.awsapps.com/EWS/Exchange.asmx", "user", "pass", -2670⟩

/-- An impersonation client configured one hour east of UTC, empty cache. -/
def ciPlusOne : ImpersonationClient :=
  ⟨"us-east-1", "org", "role", "https://example.awsapps.com/EWS/Exchange.asmx", 3600, none, 0⟩

/-- An impersonation client holding a cached token expiring at 1000. -/
def ciCached : ImpersonationClient :=
  ⟨"us-east-1", "org", "role", "https://example.awsapps.com/EWS/Exchange.asmx", 0,
    some "cached", 1000⟩

/-- A successful transport reply. -/
def okReply : SoapReply := ⟨200, "Success", "NoError"⟩

/-- A 200 reply whose body reports a protocol failure. -/
def errorClassReply : SoapReply := ⟨200, "Error", "ErrorItemNotFound"⟩

/-- The all-absent update patch. -/
def emptyUpdates : EventUpdates := ⟨none, none, none, none, none, none, [], []⟩

/-- A minimal event (no attendees) used to inspect create payloads. -/
def sampleEvent : CalendarEvent :=
  ⟨"subject", "body", ⟨0, 0⟩, ⟨3600, 0⟩, "location", false, [], [], false⟩

/-- A fetched item busy over [0, 120) UTC. -/
def busyItem : CalendarItem := ⟨"id1", "standup", .zulu 0, .zulu 120, "room"⟩

/-- A fetched item over [630, 645) UTC, inside the sample slot. -/
def overlapItem : CalendarItem := ⟨"id2", "review", .zulu 630, .zulu 645, "room"⟩

/-- A fetched item over [540, 600) UTC, touching the sample slot's start. -/
def touchingItem : CalendarItem := ⟨"id3", "sync", .zulu 540, .zulu 600, "room"⟩

/-- The sample slot [600, 660) UTC. -/
def sampleSlot : TimeSlot := ⟨⟨600, 0⟩, ⟨660, 0⟩⟩

/-! Helper lemmas shared by the claim theorems. -/

/-- The accumulator-style scan loop of the source equals the
specification's recursive cursor scan, prefixed by the accumulator. -/
theorem findSlotsLoop_eq_specScan (d : Int) (e : GoTime) :
    ∀ (events : List ParsedEvent) (cur : GoTime) (acc : List TimeSlot),
    findSlotsLoop d e cur acc events = acc ++ specFreeSlotScan d e cur events := by
  intro events
  induction events with
  | nil =>
    intro cur acc
    simp only [findSlotsLoop, specFreeSlotScan]
    split <;> simp
  | cons ev rest ih =>
    intro cur acc
    simp only [findSlotsLoop, specFreeSlotScan]
    have hcur : (if ev.End.After cur then ev.End else cur) =
        (if cur.instant ≥ ev.End.instant then cur else ev.End) := by
      simp only [GoTime.After, decide_eq_true_eq]
      by_cases h : cur.instant ≥ ev.End.instant
      · rw [if_neg (by omega), if_pos h]
      · rw [if_pos (by omega), if_neg h]
    rw [ih, hcur]
    by_cases hgap : ev.Start.Sub cur ≥ d
    · rw [if_pos hgap, if_pos hgap, List.append_assoc, List.singleton_append]
    · rw [if_neg hgap, if_neg hgap, List.nil_append]

/-- Every slot the specification scan emits passes the minimum-duration
test. -/
theorem specScan_slot_duration (d : Int) (e : GoTime) :
    ∀ (events : List ParsedEvent) (cur : GoTime) (s : TimeSlot),
    s ∈ specFreeSlotScan d e cur events → s.End.Sub s.Start ≥ d := by
  intro events
  induction events with
  | nil =>
    intro cur s hs
    simp only [specFreeSlotScan] at hs
    by_cases h : e.Sub cur ≥ d
    · rw [if_pos h] at hs
      rcases List.mem_singleton.mp hs with rfl
      exact h
    · rw [if_neg h] at hs
      exact absurd hs (List.not_mem_nil s)
  | cons ev rest ih =>
    intro cur s hs
    simp only [specFreeSlotScan] at hs
    rcases List.mem_append.mp hs with hgap | hrec
    · by_cases h : ev.Start.Sub cur ≥ d
      · rw [if_pos h] at hgap
        rcases List.mem_singleton.mp hgap with rfl
        exact h
      · rw [if_neg h] at hgap
        exact absurd hgap (List.not_mem_nil s)
    · exact ih _ s hrec

/-- When every item's date strings parse, the conflict-collection loop
succeeds and returns exactly the items passing the overlap filter. -/
theorem collectConflicts_eq_filter (c : EWSClient) (slot : TimeSlot) :
    ∀ items : List CalendarItem,
    (∀ item ∈ items, parseOk c item.Start = true ∧ parseOk c item.End = true) →
    collectConflicts c slot items = .ok (items.filter (itemConflicts c slot)) := by
  intro items
  induction items with
  | nil => intro _; rfl
  | cons item rest ih =>
    intro h
    obtain ⟨⟨hs, he⟩, hrest⟩ := List.forall_mem_cons.mp h
    rcases hps : c.ParseDateTime item.Start with e | eventStart
    · simp [parseOk, hps] at hs
    · rcases hpe : c.ParseDateTime item.End with e | eventEnd
      · simp [parseOk, hpe] at he
      · simp only [collectConflicts, hps, hpe, ih hrest, List.filter_cons,
          itemConflicts]

/-- A non-empty list is not `isEmpty`. -/
theorem isEmpty_false_of_ne_nil {α : Type} {l : List α} (h : l ≠ []) :
    l.isEmpty = false := by
  cases l with
  | nil => exact absurd rfl h
  | cons a t => rfl

/-- The refresh arm never mutates the cached pair on failure: an error
outcome always carries back the untouched client. -/
theorem refreshToken_error_state (c : ImpersonationClient) (now : Int)
    (assumeRole : Except String AssumeImpersonationRoleOutput)
    (e : String) (st : ImpersonationClient) (n : Nat)
    (h : c.refreshToken now assumeRole = (.error e, st, n)) : st = c := by
  rcases assumeRole with msg | resp
  · simp only [ImpersonationClient.refreshToken] at h
    exact (congrArg (fun p => p.2.1) h).symm
  · rcases htok : resp.Token with _ | tok <;>
      rcases hexp : resp.ExpiresIn with _ | expiresIn <;>
      simp only [ImpersonationClient.refreshToken, htok, hexp] at h <;>
      first
      | exact (congrArg (fun p => p.2.1) h).symm
      | exact Except.noConfusion (congrArg (fun p => p.1) h)

/-- `printedZoneOffset` is the identity on whole-minute offsets. -/
theorem printedZoneOffset_whole (k : Int) : printedZoneOffset (60 * k) = 60 * k := by
  have habs : (60 * k).natAbs = 60 * k.natAbs := by
    rw [Int.natAbs_mul]; rfl
  have hdiv : (60 * k.natAbs) / 60 = k.natAbs := Nat.mul_div_cancel_left _ (by norm_num)
  rcases le_or_lt 0 k with hk | hk
  · have hnonneg : ¬ (60 * k < 0) := by omega
    rw [printedZoneOffset, if_neg hnonneg, habs, hdiv, Int.natAbs_of_nonneg hk]
  · have hneg : 60 * k < 0 := by omega
    have hcast : (k.natAbs : Int) = -k := by omega
    rw [printedZoneOffset, if_pos hneg, habs, hdiv, hcast]
    ring

/-! The claim theorems. -/

/-- C1: for every period, minimum duration and non-empty busy-interval
list in non-decreasing start-time order whose date strings all parse,
`GetAvailableSlots` returns exactly the slots of the claim's cursor scan
(`specFreeSlotScan`, written from the claim's words): a slot
`[cursor, interval.Start)` per interval whose gap is at least the minimum
duration, cursor advanced to `max(cursor, interval.End)`, and a final
slot `[cursor, periodEnd)` under the same test. -/
theorem claim_C1_getAvailableSlots_eq_spec_scan (c : EWSClient)
    (startTime endTime : GoTime) (slotDuration : Int)
    (items : List CalendarItem) (events : List ParsedEvent)
    (hne : items ≠ [])
    (hparse : parseEvents c items = .ok events)
    (hsorted : sortedByStart events = true) :
    c.GetAvailableSlots startTime endTime slotDuration items =
      .ok (specFreeSlotScan slotDuration endTime startTime events) := by
  rw [EWSClient.GetAvailableSlots, if_neg (by rw [isEmpty_false_of_ne_nil hne]; simp),
    hparse]
  show Except.ok (findSlotsLoop slotDuration endTime startTime [] events) = _
  rw [findSlotsLoop_eq_specScan, List.nil_append]

/-- Witness for C1 at a concrete run: period [0, 180), duration 30, one
busy interval [0, 120) given as a `Z`-suffixed item. -/
theorem claim_C1_witness :
    cUTC.GetAvailableSlots ⟨0, 0⟩ ⟨180, 0⟩ 30 [busyItem] =
      .ok (specFreeSlotScan 30 ⟨180, 0⟩ ⟨0, 0⟩ [⟨⟨0, 0⟩, ⟨120, 0⟩⟩]) :=
  claim_C1_getAvailableSlots_eq_spec_scan cUTC ⟨0, 0⟩ ⟨180, 0⟩ 30 [busyItem]
    [⟨⟨0, 0⟩, ⟨120, 0⟩⟩] (by decide) (by decide) (by decide)

/-- C9: `GetAvailableSlots` on an empty busy-interval list returns the
single slot spanning the whole period, for every period and minimum
duration — the minimum-duration test is not applied on this path. -/
theorem claim_C9_empty_items_whole_period (c : EWSClient)
    (startTime endTime : GoTime) (slotDuration : Int) :
    c.GetAvailableSlots startTime endTime slotDuration [] =
      .ok [⟨startTime, endTime⟩] := rfl

/-- C10: with a non-empty busy-interval list whose date strings all
parse, every slot `GetAvailableSlots` returns has duration at least
`slotDuration` — the minimum-duration filter reaches every emitted slot,
in contrast to the empty-list case. -/
theorem claim_C10_nonempty_slots_min_duration (c : EWSClient)
    (startTime endTime : GoTime) (slotDuration : Int)
    (items : List CalendarItem) (events : List ParsedEvent)
    (slots : List TimeSlot)
    (hne : items ≠ [])
    (hparse : parseEvents c items = .ok events)
    (hres : c.GetAvailableSlots startTime endTime slotDuration items = .ok slots) :
    ∀ slot ∈ slots, slot.End.Sub slot.Start ≥ slotDuration := by
  rw [EWSClient.GetAvailableSlots, if_neg (by rw [isEmpty_false_of_ne_nil hne]; simp),
    hparse] at hres
  have hres2 : (Except.ok (findSlotsLoop slotDuration endTime startTime [] events) :
      Except String (List TimeSlot)) = Except.ok slots := hres
  rw [findSlotsLoop_eq_specScan, List.nil_append] at hres2
  intro slot hslot
  exact specScan_slot_duration slotDuration endTime events startTime slot
    (by rw [Except.ok.injEq] at hres2; rw [← hres2] at hslot; exact hslot)

/-- Witness for C10 at the run of the C1 witness: the one returned slot
[120, 180) has duration 60 ≥ 30. -/
theorem claim_C10_witness :
    (⟨⟨120, 0⟩, ⟨180, 0⟩⟩ : TimeSlot).End.Sub (⟨⟨120, 0⟩, ⟨180, 0⟩⟩ : TimeSlot).Start ≥ 30 :=
  claim_C10_nonempty_slots_min_duration cUTC ⟨0, 0⟩ ⟨180, 0⟩ 30 [busyItem]
    [⟨⟨0, 0⟩, ⟨120, 0⟩⟩] [⟨⟨120, 0⟩, ⟨180, 0⟩⟩] (by decide) (by decide) (by decide)
    ⟨⟨120, 0⟩, ⟨180, 0⟩⟩ (by decide)

/-- C2: when every fetched item's date strings parse,
`CheckSlotAvailability` returns the items passing the half-open overlap
test as the conflict list (an item conflicts iff its parsed start is
strictly before the slot's end and its parsed end strictly after the
slot's start — a touching item is not a conflict), and the returned
availability boolean is true iff that list is empty. -/
theorem claim_C2_checkSlotAvailability_overlap (c : EWSClient) (slot : TimeSlot)
    (items : List CalendarItem)
    (hparse : ∀ item ∈ items, parseOk c item.Start = true ∧ parseOk c item.End = true) :
    c.CheckSlotAvailability slot items =
      .ok ((items.filter (itemConflicts c slot)).length == 0,
        items.filter (itemConflicts c slot))
    ∧ (∀ item eventStart eventEnd, c.ParseDateTime item.Start = .ok eventStart →
        c.ParseDateTime item.End = .ok eventEnd →
        (itemConflicts c slot item = true ↔
          (eventStart.instant < slot.End.instant ∧ eventEnd.instant > slot.Start.instant)))
    ∧ (((items.filter (itemConflicts c slot)).length == 0) = true ↔
        items.filter (itemConflicts c slot) = []) := by
  refine ⟨?_, ?_, ?_⟩
  · rw [EWSClient.CheckSlotAvailability]
    rcases hit : items with _ | ⟨item, rest⟩
    · rfl
    · rw [if_neg (by simp), collectConflicts_eq_filter c slot (item :: rest) (hit ▸ hparse)]
  · intro item eventStart eventEnd hps hpe
    rw [itemConflicts, hps, hpe, Bool.and_eq_true, GoTime.Before, GoTime.After,
      decide_eq_true_eq, decide_eq_true_eq]
  · rw [Nat.beq_eq_true_eq, List.length_eq_zero]

/-- Witness for C2: slot [600, 660), one item over [630, 645) (overlaps)
and one over [540, 600) (touches the slot's start only). -/
theorem claim_C2_witness :
    cUTC.CheckSlotAvailability sampleSlot [overlapItem, touchingItem] =
      .ok ((([overlapItem, touchingItem].filter (itemConflicts cUTC sampleSlot)).length == 0),
        [overlapItem, touchingItem].filter (itemConflicts cUTC sampleSlot)) :=
  (claim_C2_checkSlotAvailability_overlap cUTC sampleSlot [overlapItem, touchingItem]
    (by decide)).1

/-- C3 counterexample: the claim asserts the empty-patch failure for both
clients, but the basic client's `UpdateCalendarEvent` performs no such
check — on the all-absent patch it reports success and makes one
transport call (carrying an empty field-set list) rather than failing
with an empty-update error before any network call. -/
theorem claim_C3_counterexample :
    (cUTC.UpdateCalendarEvent "item-1" emptyUpdates okReply).1 = .ok ()
    ∧ (cUTC.UpdateCalendarEvent "item-1" emptyUpdates okReply).2.length = 1 := by
  exact ⟨rfl, rfl⟩

/-- C3 (amended): on a patch with no present fields the impersonation
client's update fails with the empty-update error and makes zero
transport calls, while the basic client's update always makes exactly
one transport call, whose field-set list is empty for such a patch. -/
theorem claim_C3_empty_update_amended (c : EWSClient) (ci : ImpersonationClient)
    (itemID itemId changeKey conflictResolution sendPolicy : String)
    (u : EventUpdates) (reply : SoapReply)
    (h : u.hasNoPresentFields = true) :
    ci.UpdateCalendarEvent itemId changeKey u conflictResolution sendPolicy reply =
      (.error "no updates provided for calendar event", [])
    ∧ c.UpdateCalendarEvent itemID u reply =
      ((if reply.status ≠ 200 then .error "unexpected status code"
        else if reply.ResponseClass ≠ "Success" then .error ("EWS error: " ++ reply.ResponseCode)
        else .ok ()),
        [⟨"AlwaysOverwrite", "SendToAllAndSaveCopy", "SaveOnly", ⟨itemID, ""⟩, []⟩]) := by
  obtain ⟨uS, uE, uSub, uB, uF, uL, uR, uO⟩ := u
  simp only [EventUpdates.hasNoPresentFields, Bool.and_eq_true, Option.isNone_iff_eq_none,
    List.isEmpty_iff] at h
  obtain ⟨⟨⟨⟨⟨⟨⟨h1, h2⟩, h3⟩, h4⟩, h5⟩, h6⟩, h7⟩, h8⟩ := h
  subst h1 h2 h3 h4 h5 h6 h7 h8
  constructor
  · rw [ImpersonationClient.UpdateCalendarEvent]
    rw [if_pos]
    rfl
  · rw [EWSClient.UpdateCalendarEvent]
    rfl

/-- Witness for C3 (amended) at the all-absent patch against a 200
Success reply. -/
theorem claim_C3_witness :
    ciPlusOne.UpdateCalendarEvent "item-1" "ck" emptyUpdates "AutoResolve" "SendToNone" okReply =
      (.error "no updates provided for calendar event", [])
    ∧ cUTC.UpdateCalendarEvent "item-1" emptyUpdates okReply =
      ((if okReply.status ≠ 200 then .error "unexpected status code"
        else if okReply.ResponseClass ≠ "Success" then
          .error ("EWS error: " ++ okReply.ResponseCode)
        else .ok ()),
        [⟨"AlwaysOverwrite", "SendToAllAndSaveCopy", "SaveOnly", ⟨"item-1", ""⟩, []⟩]) :=
  claim_C3_empty_update_amended cUTC ciPlusOne "item-1" "item-1" "ck" "AutoResolve"
    "SendToNone" emptyUpdates okReply (by decide)

/-- C4: the token cache.  (a) With a cached token and the current time
strictly more than the 5-minute refresh buffer before its stored expiry,
`getToken` returns the cached token with the client unchanged and zero
identity-service calls.  (b) When the service errors, and (c) when it
replies without token or expiry, `getToken` returns an error and the
cached token/expiry pair is exactly the one before the call — the cache
is replaced only on a fully successful refresh. -/
theorem claim_C4_token_cache (c : ImpersonationClient) (now : Int)
    (assumeRole : Except String AssumeImpersonationRoleOutput) :
    (∀ tok, c.currentToken = some tok → now < c.tokenExpiry - tokenRefreshBuffer →
      c.getToken now assumeRole = (.ok tok, c, 0))
    ∧ (∀ e st n, c.getToken now assumeRole = (.error e, st, n) → st = c) := by
  constructor
  · intro tok htok hfresh
    rw [ImpersonationClient.getToken, htok]
    simp only [if_pos hfresh]
  · intro e st n h
    rw [ImpersonationClient.getToken] at h
    rcases htok : c.currentToken with _ | tok <;> rw [htok] at h
    · exact refreshToken_error_state c now assumeRole e st n h
    · have h2 : (if now < c.tokenExpiry - tokenRefreshBuffer
          then ((Except.ok tok : Except String String), c, (0 : Nat))
          else c.refreshToken now assumeRole) = (.error e, st, n) := h
      by_cases hfresh : now < c.tokenExpiry - tokenRefreshBuffer
      · rw [if_pos hfresh] at h2
        exact Except.noConfusion (congrArg (fun p => p.1) h2)
      · rw [if_neg hfresh] at h2
        exact refreshToken_error_state c now assumeRole e st n h2

/-- Witness for C4: a client caching token `"cached"` with expiry 1000 at
time 0 (2/3 of the buffer away would be 700 — 0 is well before it)
returns the cache untouched without consulting the service; the same
client at time 900 with a failing service, or a service omitting the
expiry, errors with its state intact. -/
theorem claim_C4_witness :
    ciCached.getToken 0 (.error "boom") = (.ok "cached", ciCached, 0)
    ∧ ((ciCached.getToken 900 (.error "boom")).2.1 = ciCached
      ∧ (ciCached.getToken 900 (.ok ⟨some "fresh", none⟩)).2.1 = ciCached) :=
  ⟨(claim_C4_token_cache ciCached 0 (.error "boom")).1 "cached" rfl (by decide),
    (claim_C4_token_cache ciCached 900 (.error "boom")).2
      "failed to assume impersonation role: boom" _ 1 rfl,
    (claim_C4_token_cache ciCached 900 (.ok ⟨some "fresh", none⟩)).2
      "AssumeImpersonationRole response missing token or expiry" _ 1 rfl⟩

/-- C5 counterexample: the claim requires every offset-carrying match to
be converted into the client's timezone and the colon-free offset form
to be attempted by both clients.  A basic client configured at +01:00
returns an offset-qualified UTC string still at offset 0, not 3600; and
the impersonation client rejects the colon-free offset form outright. -/
theorem claim_C5_counterexample :
    (cPlusOne.ParseDateTime (.offsetColon 0 0) = .ok ⟨0, 0⟩
      ∧ (GoTime.mk 0 0).offset ≠ cPlusOne.TimeZone)
    ∧ ciPlusOne.ParseDateTime (.offsetNoColon 0 0) =
        .error "unable to parse date string with known formats" := by
  exact ⟨⟨rfl, by decide⟩, rfl⟩

/-- C5 (amended): full characterization of both parsers.  The basic
client attempts, in order, the offset-qualified, `Z`-suffixed, colon-free
offset and bare forms, returning the first success; a form carrying its
own zone is returned at that zone's offset — denoting the right instant
but NOT converted into the client's timezone.  The impersonation client
attempts only the offset-qualified, `Z`-suffixed and bare forms (the
colon-free form fails), and does convert carried-offset results into the
client's timezone while preserving the instant. -/
theorem claim_C5_parse_behavior_amended (c : EWSClient) (ci : ImpersonationClient)
    (w o : Int) (s : String) :
    c.ParseDateTime (.offsetColon w o) = .ok ⟨w - o, o⟩
    ∧ c.ParseDateTime (.zulu w) = .ok ⟨w, 0⟩
    ∧ c.ParseDateTime (.offsetNoColon w o) = .ok ⟨w - o, o⟩
    ∧ c.ParseDateTime (.bare w) = .ok ⟨w - c.TimeZone, c.TimeZone⟩
    ∧ c.ParseDateTime (.malformed s) = .error "unable to parse date string"
    ∧ ci.ParseDateTime (.offsetColon w o) = .ok ⟨w - o, ci.timeZone⟩
    ∧ ci.ParseDateTime (.zulu w) = .ok ⟨w, ci.timeZone⟩
    ∧ ci.ParseDateTime (.offsetNoColon w o) =
        .error "unable to parse date string with known formats"
    ∧ ci.ParseDateTime (.bare w) = .ok ⟨w - ci.timeZone, ci.timeZone⟩
    ∧ ci.ParseDateTime (.malformed s) =
        .error "unable to parse date string with known formats" := by
  refine ⟨rfl, rfl, rfl, ?_, rfl, rfl, rfl, rfl, ?_, rfl⟩
  · rw [EWSClient.ParseDateTime]
    simp [timeParseRFC3339, timeParseZLiteral, timeParseNumTZ, timeParseBare, GoTime.wall]
  · rw [ImpersonationClient.ParseDateTime]
    simp [timeParseRFC3339, timeParseZLiteral, timeParseBare, GoTime.wall]

/-- C6 counterexample: the claim asserts the round trip for every
timestamp and every valid client timezone, but at a sub-minute zone
offset the `-07:00` format verb drops the offset's seconds while the
wall clock keeps them, so re-parsing shifts the instant by the
remainder.  At −00:44:30 (Africa/Monrovia until 1972) the instant 0
round-trips to −30, at the truncated printed offset −00:44. -/
theorem claim_C6_counterexample :
    cMonrovia.ParseDateTime (cMonrovia.FormatDateWithTZ ⟨0, 0⟩) = .ok ⟨-30, -2640⟩
    ∧ (GoTime.mk (-30) (-2640)).instant ≠ (GoTime.mk 0 0).instant := by
  exact ⟨rfl, by decide⟩

/-- C6 (amended): parsing the offset-including formatter's output
recovers the original instant exactly, for every timestamp and every
client zone offset that is a whole number of minutes — the offsets the
`-07:00` format verb can represent losslessly (all IANA offsets in
modern use).  The result additionally sits at the client's zone offset,
since that is the offset the formatter printed.  For sub-minute offsets
the round trip shifts the instant, per the counterexample. -/
theorem claim_C6_format_parse_roundtrip (c : EWSClient) (t : GoTime)
    (h : ∃ k : Int, c.TimeZone = 60 * k) :
    c.ParseDateTime (c.FormatDateWithTZ t) = .ok ⟨t.instant, c.TimeZone⟩ := by
  obtain ⟨k, hk⟩ := h
  rw [EWSClient.FormatDateWithTZ, hk, printedZoneOffset_whole, EWSClient.ParseDateTime]
  simp [timeParseRFC3339, GoTime.In, GoTime.wall]

/-- Witness for C6 (amended): a +01:00 client and the instant 123s. -/
theorem claim_C6_witness :
    cPlusOne.ParseDateTime (cPlusOne.FormatDateWithTZ ⟨123, 0⟩) =
      .ok ⟨123, cPlusOne.TimeZone⟩ :=
  claim_C6_format_parse_roundtrip cPlusOne ⟨123, 0⟩ ⟨60, by decide⟩

/-- C7 counterexample: the claim asserts the create payload's start and
end are formatted without a UTC offset for both clients, but the
impersonation client renders them with `FormatDateWithTZ`: on a +01:00
client its payload's start string carries an explicit offset. -/
theorem claim_C7_counterexample :
    ((ciPlusOne.buildCreateEventRequest sampleEvent "SendToNone").CalendarItem.Start
      ).carriesOffset = true := rfl

/-- C7 (amended): for every event, both clients' create payloads enable
the reminder with a 15-unit lead, default the free/busy classification
to Busy, and attach required/optional attendee elements exactly when the
corresponding list is non-empty; the basic client formats start/end
without a UTC offset while the impersonation client formats them WITH an
explicit UTC offset. -/
theorem claim_C7_create_payload_amended (c : EWSClient) (ci : ImpersonationClient)
    (event : CalendarEvent) (sendMeetingInvitations : String) :
    (c.buildCreateEventRequest event).CalendarItem.ReminderIsSet = true
    ∧ (c.buildCreateEventRequest event).CalendarItem.ReminderMinutes = 15
    ∧ (c.buildCreateEventRequest event).CalendarItem.Start = c.FormatDateWithoutTZ event.Start
    ∧ (c.buildCreateEventRequest event).CalendarItem.End = c.FormatDateWithoutTZ event.End
    ∧ (c.FormatDateWithoutTZ event.Start).carriesOffset = false
    ∧ (c.FormatDateWithoutTZ event.End).carriesOffset = false
    ∧ (c.buildCreateEventRequest event).CalendarItem.LegacyFreeBusy = "Busy"
    ∧ ((c.buildCreateEventRequest event).CalendarItem.RequiredAttendees = none ↔
        event.RequiredAttendees = [])
    ∧ ((c.buildCreateEventRequest event).CalendarItem.OptionalAttendees = none ↔
        event.OptionalAttendees = [])
    ∧ (ci.buildCreateEventRequest event sendMeetingInvitations).CalendarItem.ReminderIsSet = true
    ∧ (ci.buildCreateEventRequest event sendMeetingInvitations).CalendarItem.ReminderMinutes = 15
    ∧ (ci.buildCreateEventRequest event sendMeetingInvitations).CalendarItem.Start =
        ci.FormatDateWithTZ event.Start
    ∧ (ci.buildCreateEventRequest event sendMeetingInvitations).CalendarItem.End =
        ci.FormatDateWithTZ event.End
    ∧ (ci.FormatDateWithTZ event.Start).carriesOffset = true
    ∧ (ci.FormatDateWithTZ event.End).carriesOffset = true
    ∧ (ci.buildCreateEventRequest event sendMeetingInvitations).CalendarItem.LegacyFreeBusy =
        "Busy"
    ∧ ((ci.buildCreateEventRequest event sendMeetingInvitations).CalendarItem.RequiredAttendees =
        none ↔ event.RequiredAttendees = [])
    ∧ ((ci.buildCreateEventRequest event sendMeetingInvitations).CalendarItem.OptionalAttendees =
        none ↔ event.OptionalAttendees = []) := by
  refine ⟨rfl, rfl, rfl, rfl, rfl, rfl, rfl, ?_, ?_, rfl, rfl, rfl, rfl, rfl, rfl, rfl, ?_, ?_⟩ <;>
    simp only [EWSClient.buildCreateEventRequest, ImpersonationClient.buildCreateEventRequest] <;>
    rcases event.RequiredAttendees with _ | _ <;> rcases event.OptionalAttendees with _ | _ <;>
    simp

/-- C8 counterexample: the claim asserts the delete operation of both
clients surfaces a non-`"Success"` response class as an error, but the
basic client's `DeleteCalendarEvent` never reads the response body: on
an HTTP 200 reply whose class is `"Error"` it reports success. -/
theorem claim_C8_counterexample :
    (cUTC.DeleteCalendarEvent "item-1" errorClassReply).1 = .ok () := rfl

/-- C8 (amended): on an HTTP 200 reply, the impersonation client's
delete surfaces a non-`"Success"` response class as an error carrying the
class and code; the basic client's delete ignores the response body
entirely and returns success for every HTTP 200 reply, whatever the
class. -/
theorem claim_C8_delete_response_amended (c : EWSClient) (ci : ImpersonationClient)
    (itemID itemId changeKey deleteType sendMeetingCancellations : String)
    (reply r2 : SoapReply)
    (h200 : reply.status = 200) (hclass : reply.ResponseClass ≠ "Success")
    (h200b : r2.status = 200) :
    (ci.DeleteCalendarEvent itemId changeKey deleteType sendMeetingCancellations reply).1 =
      .error ("EWS error deleting event: " ++ reply.ResponseClass ++ ". Code: " ++
        reply.ResponseCode)
    ∧ (c.DeleteCalendarEvent itemID r2).1 = .ok () := by
  constructor
  · rw [ImpersonationClient.DeleteCalendarEvent]
    simp only [h200, if_neg, if_pos hclass]
    simp
  · rw [EWSClient.DeleteCalendarEvent]
    simp [h200b]

/-- Witness for C8 (amended): a 200 reply with class `"Error"` and code
`"ErrorItemNotFound"`. -/
theorem claim_C8_witness :
    (ciPlusOne.DeleteCalendarEvent "item-1" "ck" "MoveToDeletedItems" "SendToNone"
      errorClassReply).1 =
      .error ("EWS error deleting event: " ++ errorClassReply.ResponseClass ++ ". Code: " ++
        errorClassReply.ResponseCode)
    ∧ (cUTC.DeleteCalendarEvent "item-1" errorClassReply).1 = .ok () :=
  claim_C8_delete_response_amended cUTC ciPlusOne "item-1" "item-1" "ck" "MoveToDeletedItems"
    "SendToNone" errorClassReply errorClassReply rfl (by decide) rfl

end EwsWorkmail
